import Mathlib

/-!
Shallow embedding of the chat frontend in
`src/multi_agent_chatbot_frontend/src/App.js`.

The component state (`messages`, `input`, `agentStatus`, `isSending`) is
modelled as an explicit `AppState` record.  The asynchronous handler
`handleSend` is split at its single `await` into a synchronous prefix
(`handleSendStart`, everything before the network call) and a continuation
(`handleSendSettle`, the `try`/`catch`/`finally` body run once the network
call settles).  JavaScript objects used as string maps are modelled as
association lists; JavaScript truthiness of the values that actually flow
through the code (numbers, strings, parsed JSON) is modelled explicitly,
since the source uses `||` and `if (x)` on them.

JavaScript string primitives (`trim`, `toLowerCase`, `includes`, `slice`)
are re-implemented over `List Char` so that every definition reduces in the
kernel; on the ASCII inputs the app manipulates they agree with the JS
semantics.
-/

namespace OceanChat

/-- Message roles used by the app: `user`, `agent`, `system`. -/
inductive Role where
  | user
  | agent
  | system
deriving DecidableEq, Repr

/-- A stored chat entry, as built in `App.js` (fields `id`, `role`,
`agentId`, `content`, `timestamp`, `error`).  `agentId` is optional
(absent on user/system messages); `error` is `true` only on the system
failure message, modelled as a plain `Bool` defaulting to `false`. -/
structure ChatMessage where
  id : String
  role : Role
  agentId : Option String
  content : String
  timestamp : Nat
  error : Bool
deriving DecidableEq, Repr

/-- A JavaScript object used as a string-to-string map (the agent status
object), modelled as an association list. -/
abbrev StatusMap := List (String × String)

/-- JavaScript property lookup on a string map: first binding for the key
(association lists built here never repeat a key). -/
def objGet : StatusMap → String → Option String
  | [], _ => none
  | (k, v) :: rest, key => if k = key then some v else objGet rest key

/-- JavaScript object spread `{ ...a, ...b }`: the result binds every key
of `b` to `b`'s value and every other key of `a` to `a`'s value.  (The
textual key order of the spread result is not observable through `objGet`
and is not preserved.) -/
def objMerge (a b : StatusMap) : StatusMap :=
  b ++ a.filter (fun p => (objGet b p.1).isNone)

/-- JavaScript `text.toLowerCase()` on the ASCII text the app handles. -/
def jsToLower (s : String) : String :=
  String.mk (s.data.map Char.toLower)

/-- JavaScript `text.trim()`: drop whitespace from both ends. -/
def jsTrim (s : String) : String :=
  String.mk (((s.data.dropWhile Char.isWhitespace).reverse.dropWhile
    Char.isWhitespace).reverse)

/-- Substring occurrence on character lists (JavaScript `includes`). -/
def containsSub (needle : List Char) : List Char → Bool
  | [] => needle.isEmpty
  | c :: rest => needle.isPrefixOf (c :: rest) || containsSub needle rest

/-- JavaScript `s.includes(sub)`. -/
def jsIncludes (s sub : String) : Bool :=
  containsSub sub.data s.data

/-- One entry of a backend response's `messages` array, per the documented
response schema in `sendMessageToBackend` (`role`, optional `agentId`,
`content`, optional numeric `timestamp`). -/
structure MsgEntry where
  role : Role
  agentId : Option String
  content : String
  timestamp : Option Nat
deriving DecidableEq, Repr

/-- A send-message response payload: optional `messages` array (the code
guards with `Array.isArray(data?.messages)`, modelled as presence) and
optional `agentStatus` object (the code guards with `if (data?.agentStatus)`;
an object, even empty, is truthy, so presence of the field decides). -/
structure SendPayload where
  messages : Option (List MsgEntry)
  agentStatus : Option StatusMap
deriving DecidableEq, Repr

/-- Parsed JSON values, used to model `res.json()` results before any
schema is assumed. -/
inductive Json where
  | null
  | bool (b : Bool)
  | num (n : Int)
  | str (s : String)
  | arr (xs : List Json)
  | obj (fields : List (String × Json))

/-- JavaScript truthiness of a parsed JSON value: `null`, `false`, `0` and
the empty string are falsy; arrays and objects are always truthy. -/
def Json.truthy : Json → Bool
  | .null => false
  | .bool b => b
  | .num n => n != 0
  | .str s => s != ""
  | .arr _ => true
  | .obj _ => true

/-- JavaScript `m.timestamp || Date.now()`: the left operand is kept only
when truthy, i.e. present and nonzero; otherwise the current time is used. -/
def jsNumOr (t : Option Nat) (dflt : Nat) : Nat :=
  match t with
  | some v => if v = 0 then dflt else v
  | none => dflt

/-- The local fallback `simulateAgentResponse(text)`: deterministic
two-message payload.  The planner reply is keyed on the lowercased text
containing `plan` or `how`; the research reply quotes the first 60
characters of the input (`text.slice(0, 60)`). -/
def simulateAgentResponse (text : String) : SendPayload :=
  let lower := jsToLower text
  let helpful := jsIncludes lower "plan" || jsIncludes lower "how"
  let ragReply :=
    "I searched our knowledge base and found related insights to your question."
  let plannerReply :=
    if helpful then
      "Here is a step-by-step plan: 1) Analyze 2) Retrieve 3) Synthesize 4) Validate."
    else
      "I will coordinate the agents to craft a helpful reply."
  { messages := some [
      { role := .agent, agentId := some "agent_rag",
        content := ragReply ++ " \"" ++ text.take 60 ++ "\"", timestamp := none },
      { role := .agent, agentId := some "agent_planner",
        content := plannerReply, timestamp := none }],
    agentStatus := some [("agent_rag", "responding"), ("agent_planner", "thinking")] }

/-- Outcome of the POST issued by `sendMessageToBackend`: the fetch either
rejects (network error) or yields a response with an HTTP success flag
(`res.ok`) and the result of `res.json().catch(() => null)`, modelled as
`none` when parsing failed. -/
inductive SendNetOutcome where
  | networkError
  | response (ok : Bool) (parsed : Option Json)

/-- What `sendMessageToBackend` hands back on the success path: either the
backend's parsed JSON or the simulator's payload. -/
inductive SendResult where
  | fromBackend (j : Json)
  | simulated (p : SendPayload)

/-- The control flow of `sendMessageToBackend(text)`: a rejected fetch or a
non-ok response throws (modelled as `.error ()`); on an ok response the
parsed body is kept when truthy (`(await res.json().catch(() => null)) ||
simulateAgentResponse(text)`), and otherwise the simulator payload is
returned. -/
def sendMessageToBackend (o : SendNetOutcome) (text : String) :
    Except Unit SendResult :=
  match o with
  | .networkError => .error ()
  | .response ok parsed =>
    if ok then
      .ok (match parsed with
        | some j =>
          if j.truthy then .fromBackend j
          else .simulated (simulateAgentResponse text)
        | none => .simulated (simulateAgentResponse text))
    else .error ()

/-- Outcome of the GET issued by `fetchAgentStatus`, analogous to
`SendNetOutcome`. -/
inductive FetchOutcome where
  | networkError
  | response (ok : Bool) (parsed : Option Json)

/-- What `fetchAgentStatus` returns: the backend's parsed JSON, or the
wrapped last-known local map `{ agentStatus }`.  The function is total:
every outcome produces a value, never an exception. -/
inductive FetchResult where
  | fromBackend (j : Json)
  | localFallback (st : StatusMap)

/-- The control flow of `fetchAgentStatus()`: a non-ok response throws
inside the `try` and is caught, a rejected fetch is caught, and a body that
fails to parse (or parses to a falsy value) falls back via `|| { agentStatus }`;
in all those cases the last-known local map is returned. -/
def fetchAgentStatus (o : FetchOutcome) (lastKnown : StatusMap) : FetchResult :=
  match o with
  | .networkError => .localFallback lastKnown
  | .response ok parsed =>
    if ok then
      match parsed with
      | some j =>
        if j.truthy then .fromBackend j else .localFallback lastKnown
      | none => .localFallback lastKnown
    else .localFallback lastKnown

/-- The component state read and written by `handleSend`. -/
structure AppState where
  messages : List ChatMessage
  input : String
  agentStatus : StatusMap
  isSending : Bool
deriving DecidableEq, Repr

/-- Synchronous prefix of `handleSend` (everything before `await
sendMessageToBackend`): the guard `if (!input.trim() || isSending) return`,
then append the user message, clear the input, set `isSending`, and
optimistically spread `{ ...s, agent_rag: 'thinking', agent_planner: 'idle' }`.
The second component is the text a network request is issued with
(`none` when the guard returned and no request is made). -/
def handleSendStart (s : AppState) (now : Nat) : AppState × Option String :=
  if jsTrim s.input = "" ∨ s.isSending = true then (s, none)
  else
    let content := jsTrim s.input
    ({ messages := s.messages ++
        [{ id := "u_" ++ toString now, role := .user, agentId := none,
           content := content, timestamp := now, error := false }],
       input := "",
       agentStatus := objMerge s.agentStatus
         [("agent_rag", "thinking"), ("agent_planner", "idle")],
       isSending := true }, some content)

/-- How the settled send outcome is consumed by `handleSend`: a typed
payload on success (the backend JSON decoded per the documented schema, or
the simulator payload) or a thrown error. -/
inductive SendOutcome where
  | success (p : SendPayload)
  | failure

/-- Continuation of `handleSend` after the `await`: on success, append the
mapped `messages` array (generated ids `a_<now>_<idx>`, timestamps
`m.timestamp || Date.now()`) and either spread `data.agentStatus` into the
status map or replace it with the transient responding/thinking pair; on
failure, append the fixed system error message and replace the status map
with the error/idle pair.  The `finally` clears `isSending`.  The 1200 ms
delayed reset to all-idle in the no-`agentStatus` branch is a later timer
tick and is not part of this settled state. -/
def handleSendSettle (s : AppState) (outcome : SendOutcome) (now : Nat) :
    AppState :=
  match outcome with
  | .success p =>
    let s1 : AppState :=
      match p.messages with
      | some entries =>
        { s with messages := s.messages ++ entries.enum.map (fun im =>
            { id := "a_" ++ toString now ++ "_" ++ toString im.1,
              role := im.2.role, agentId := im.2.agentId,
              content := im.2.content,
              timestamp := jsNumOr im.2.timestamp now,
              error := false }) }
      | none => s
    let s2 : AppState :=
      match p.agentStatus with
      | some st => { s1 with agentStatus := objMerge s1.agentStatus st }
      | none =>
        { s1 with agentStatus :=
            [("agent_rag", "responding"), ("agent_planner", "thinking")] }
    { s2 with isSending := false }
  | .failure =>
    { s with
      messages := s.messages ++
        [{ id := "err_" ++ toString now, role := .system, agentId := none,
           content := "Oops! Something went wrong talking to the backend. Please check your connection and try again.",
           timestamp := now, error := true }],
      agentStatus := [("agent_rag", "error"), ("agent_planner", "idle")],
      isSending := false }

/-- Content of the i-th entry of a payload's `messages` array, when present
(used to name the research reply at index 0 and the planner reply at
index 1 of the simulator output). -/
def payloadContentAt (p : SendPayload) (i : Nat) : Option String :=
  match p.messages with
  | some msgs => (msgs[i]?).map (fun m => m.content)
  | none => none

/-- First entry of a payload's `messages` array, when present. -/
def payloadFirstMessage (p : SendPayload) : Option MsgEntry :=
  match p.messages with
  | some (m :: _) => some m
  | _ => none

/-- Unfolding equation for `objGet` on a cons cell. -/
theorem objGet_cons (k1 v1 : String) (rest : StatusMap) (key : String) :
    objGet ((k1, v1) :: rest) key = if k1 = key then some v1 else objGet rest key :=
  rfl

/-- Lookup in an appended map hits the left part first. -/
theorem objGet_append_of_some {a : StatusMap} (b : StatusMap) {k v : String}
    (h : objGet a k = some v) : objGet (a ++ b) k = some v := by
  induction a with
  | nil => simp [objGet] at h
  | cons p rest ih =>
    obtain ⟨k1, v1⟩ := p
    by_cases hk : k1 = k
    · rw [objGet_cons, if_pos hk] at h
      rw [List.cons_append, objGet_cons, if_pos hk]
      exact h
    · rw [objGet_cons, if_neg hk] at h
      rw [List.cons_append, objGet_cons, if_neg hk]
      exact ih h

/-- Lookup in an appended map falls through to the right part when the key
is absent on the left. -/
theorem objGet_append_of_none {a : StatusMap} (b : StatusMap) {k : String}
    (h : objGet a k = none) : objGet (a ++ b) k = objGet b k := by
  induction a with
  | nil => rfl
  | cons p rest ih =>
    obtain ⟨k1, v1⟩ := p
    by_cases hk : k1 = k
    · rw [objGet_cons, if_pos hk] at h
      exact absurd h (by simp)
    · rw [objGet_cons, if_neg hk] at h
      rw [List.cons_append, objGet_cons, if_neg hk]
      exact ih h

/-- Filtering out keys that are absent from `b` does not change lookups of
a key absent from `b`. -/
theorem objGet_filter_absent {b : StatusMap} (a : StatusMap) {k : String}
    (h : objGet b k = none) :
    objGet (a.filter (fun p => (objGet b p.1).isNone)) k = objGet a k := by
  induction a with
  | nil => rfl
  | cons p rest ih =>
    obtain ⟨k1, v1⟩ := p
    by_cases hk : k1 = k
    · subst hk
      simp [List.filter_cons, h, objGet, ih]
    · by_cases hb : (objGet b k1).isNone
      · simp [List.filter_cons, hb, objGet, hk, ih]
      · simp [List.filter_cons, hb, objGet, hk, ih]

/-- Spread semantics through lookup: keys present in `b` take `b`'s value,
keys absent from `b` keep `a`'s value. -/
theorem objGet_objMerge (a b : StatusMap) (k : String) :
    objGet (objMerge a b) k =
      match objGet b k with
      | some v => some v
      | none => objGet a k := by
  cases h : objGet b k with
  | some v => simpa [objMerge] using objGet_append_of_some _ h
  | none =>
    simp only [objMerge]
    rw [objGet_append_of_none _ h, objGet_filter_absent _ h]

/-- C1: for every input whose trimmed text is non-empty, submitted while no
send is in flight, `handleSend` appends exactly one user-role `ChatMessage`
to the message store in its synchronous prefix (before any network activity
completes), clears the input buffer, and issues the network request with the
trimmed text. -/
theorem c1_idle_send_appends_one_user_message (s : AppState) (now : Nat)
    (hne : jsTrim s.input ≠ "") (hidle : s.isSending = false) :
    (handleSendStart s now).1.messages = s.messages ++
      [{ id := "u_" ++ toString now, role := Role.user, agentId := none,
         content := jsTrim s.input, timestamp := now, error := false }] ∧
    (handleSendStart s now).1.input = "" ∧
    (handleSendStart s now).2 = some (jsTrim s.input) := by
  simp [handleSendStart, hne, hidle]

/-- Witness for C1 at a concrete idle state with input `"hi "`. -/
theorem c1_idle_send_appends_one_user_message_witness :
    jsTrim "hi " ≠ "" ∧
    ((handleSendStart ⟨[], "hi ", [("agent_rag", "idle")], false⟩ 7).1.messages =
      [] ++ [{ id := "u_" ++ toString 7, role := Role.user, agentId := none,
               content := jsTrim "hi ", timestamp := 7, error := false }] ∧
    (handleSendStart ⟨[], "hi ", [("agent_rag", "idle")], false⟩ 7).1.input = "" ∧
    (handleSendStart ⟨[], "hi ", [("agent_rag", "idle")], false⟩ 7).2 =
      some (jsTrim "hi ")) :=
  ⟨by decide,
   c1_idle_send_appends_one_user_message ⟨[], "hi ", [("agent_rag", "idle")], false⟩ 7
     (by decide) rfl⟩

/-- C2: while a send is in flight (`isSending` true), `handleSend` is a
no-op: the state (message store, input buffer, agent status map) is
returned unchanged and no network request is issued. -/
theorem c2_send_while_sending_is_noop (s : AppState) (now : Nat)
    (hsending : s.isSending = true) :
    handleSendStart s now = (s, none) := by
  simp [handleSendStart, hsending]

/-- Witness for C2 at a concrete in-flight state. -/
theorem c2_send_while_sending_is_noop_witness :
    handleSendStart ⟨[], "queued text", [("agent_rag", "thinking")], true⟩ 9 =
      (⟨[], "queued text", [("agent_rag", "thinking")], true⟩, none) :=
  c2_send_while_sending_is_noop ⟨[], "queued text", [("agent_rag", "thinking")], true⟩ 9 rfl

/-- C3: when the backend call fails, `handleSend` appends exactly one
system-role message with `error := true` and the fixed error string, and in
the resulting agent status map `agent_rag` is `error`, `agent_planner` is
`idle`, and no entry at all is `thinking` or `responding`. -/
theorem c3_failed_send_appends_error_and_no_busy_agent (s : AppState) (now : Nat) :
    (handleSendSettle s .failure now).messages = s.messages ++
      [{ id := "err_" ++ toString now, role := Role.system, agentId := none,
         content := "Oops! Something went wrong talking to the backend. Please check your connection and try again.",
         timestamp := now, error := true }] ∧
    objGet (handleSendSettle s .failure now).agentStatus "agent_rag" = some "error" ∧
    objGet (handleSendSettle s .failure now).agentStatus "agent_planner" = some "idle" ∧
    (handleSendSettle s .failure now).agentStatus.all
      (fun p => p.2 != "thinking" && p.2 != "responding") = true :=
  ⟨rfl, rfl, rfl, rfl⟩

/-- C4: a successful payload carrying an `agentStatus` map is merged
shallowly into the agent status map: every key present in the payload takes
the payload's value, every key absent from the payload keeps its prior
value. -/
theorem c4_success_status_shallow_merge (s : AppState) (now : Nat)
    (p : SendPayload) (st : StatusMap) (hst : p.agentStatus = some st)
    (k : String) :
    objGet (handleSendSettle s (.success p) now).agentStatus k =
      match objGet st k with
      | some v => some v
      | none => objGet s.agentStatus k := by
  cases hm : p.messages with
  | some entries =>
    simp only [handleSendSettle, hm, hst]
    exact objGet_objMerge s.agentStatus st k
  | none =>
    simp only [handleSendSettle, hm, hst]
    exact objGet_objMerge s.agentStatus st k

/-- Witness for C4: a key absent from the payload keeps its prior value
(and the payload key is taken, checked at a second instance below through
the same theorem application being definitionally evaluated). -/
theorem c4_success_status_shallow_merge_witness :
    objGet (handleSendSettle
        ⟨[], "", [("agent_planner", "idle"), ("agent_extra", "thinking")], true⟩
        (.success ⟨none, some [("agent_rag", "responding")]⟩) 3).agentStatus
      "agent_extra" = some "thinking" :=
  c4_success_status_shallow_merge
    ⟨[], "", [("agent_planner", "idle"), ("agent_extra", "thinking")], true⟩ 3
    ⟨none, some [("agent_rag", "responding")]⟩ [("agent_rag", "responding")] rfl
    "agent_extra"

/-- C10: the failure path replaces the whole agent status map with exactly
the two-key map `agent_rag = error, agent_planner = idle`; any other key
present before the failure is gone afterwards. -/
theorem c10_failure_replaces_status_map (s : AppState) (now : Nat) :
    (handleSendSettle s .failure now).agentStatus =
      [("agent_rag", "error"), ("agent_planner", "idle")] ∧
    ∀ k : String, k ≠ "agent_rag" → k ≠ "agent_planner" →
      objGet (handleSendSettle s .failure now).agentStatus k = none := by
  refine ⟨rfl, fun k h1 h2 => ?_⟩
  show objGet [("agent_rag", "error"), ("agent_planner", "idle")] k = none
  rw [objGet_cons, if_neg (fun h => h1 h.symm), objGet_cons,
    if_neg (fun h => h2 h.symm)]
  rfl

/-- Witness for C10: a third agent's entry present before the failure is
removed by the failure path. -/
theorem c10_failure_replaces_status_map_witness :
    objGet (handleSendSettle ⟨[], "", [("agent_extra", "thinking")], true⟩
      .failure 9).agentStatus "agent_extra" = none :=
  (c10_failure_replaces_status_map ⟨[], "", [("agent_extra", "thinking")], true⟩ 9).2
    "agent_extra" (by decide) (by decide)

/-- C7: `fetchAgentStatus` never propagates an error — it is total by
construction (its result type has no error case) — and on every failing
outcome (rejected fetch, non-ok HTTP status, unparseable body) it returns
the last-known local status map. -/
theorem c7_fetch_status_failure_returns_local (lastKnown : StatusMap)
    (parsed : Option Json) :
    fetchAgentStatus .networkError lastKnown = .localFallback lastKnown ∧
    fetchAgentStatus (.response false parsed) lastKnown = .localFallback lastKnown ∧
    fetchAgentStatus (.response true none) lastKnown = .localFallback lastKnown :=
  ⟨rfl, rfl, rfl⟩

/-- C5: the simulator's planner reply (second message) is the step-by-step
template containing `Analyze` exactly when the lowercased input contains
`plan` or `how`, and the generic coordination template otherwise; in
particular `How do I plan this?` selects the step-by-step template and
`hello` selects the generic one. -/
theorem c5_planner_template_keyed_on_plan_or_how :
    (∀ text : String,
      payloadContentAt (simulateAgentResponse text) 1 =
        some (if jsIncludes (jsToLower text) "plan" || jsIncludes (jsToLower text) "how" then
          "Here is a step-by-step plan: 1) Analyze 2) Retrieve 3) Synthesize 4) Validate."
        else
          "I will coordinate the agents to craft a helpful reply.")) ∧
    payloadContentAt (simulateAgentResponse "How do I plan this?") 1 =
      some "Here is a step-by-step plan: 1) Analyze 2) Retrieve 3) Synthesize 4) Validate." ∧
    jsIncludes "Here is a step-by-step plan: 1) Analyze 2) Retrieve 3) Synthesize 4) Validate."
      "Analyze" = true ∧
    payloadContentAt (simulateAgentResponse "hello") 1 =
      some "I will coordinate the agents to craft a helpful reply." :=
  ⟨fun _ => rfl, by decide, by decide, by decide⟩

/-- C6: the simulator's first message is tagged `agent_rag` and its content
contains the first 60 characters of the input text verbatim. -/
theorem c6_research_message_quotes_input (text : String) :
    ∃ m : MsgEntry,
      payloadFirstMessage (simulateAgentResponse text) = some m ∧
      m.agentId = some "agent_rag" ∧
      (text.take 60).data <:+: m.content.data := by
  refine ⟨_, rfl, rfl, ?_⟩
  refine ⟨("I searched our knowledge base and found related insights to your question." ++ " \"").data,
    "\"".data, ?_⟩
  simp [String.data_append, List.append_assoc]

/-- C8 counterexample: on a 2xx response whose body parses to the JSON
number `0`, parsing yields a value (not nothing), yet `sendMessageToBackend`
still returns the simulator's output, because the source falls back on any
falsy parse result (`data || simulateAgentResponse(text)`), not only on a
failed parse. -/
theorem c8_falsy_parse_counterexample :
    sendMessageToBackend (.response true (some (Json.num 0))) "hi" =
      .ok (.simulated (simulateAgentResponse "hi")) ∧
    some (Json.num 0) ≠ (none : Option Json) :=
  ⟨rfl, by simp⟩

/-- C8 (amended): on a 2xx response `sendMessageToBackend` returns the
simulator's output for the same text exactly when the parsed body is absent
or falsy (JSON `null`, `false`, `0`, or the empty string); a truthy parsed
body is returned as the payload. -/
theorem c8_simulator_exactly_on_falsy_parse (parsed : Option Json)
    (text : String) :
    sendMessageToBackend (.response true parsed) text =
      .ok (.simulated (simulateAgentResponse text)) ↔
    (parsed = none ∨ ∃ j, parsed = some j ∧ j.truthy = false) := by
  cases parsed with
  | none => simp [sendMessageToBackend]
  | some j =>
    cases hj : j.truthy with
    | true => simp [sendMessageToBackend, hj]
    | false => simp [sendMessageToBackend, hj]

/-- C9 counterexample: a returned entry that carries the timestamp `0` is
appended with timestamp `now` (here `5`), not with the carried timestamp,
because the source computes `m.timestamp || Date.now()` and `0` is falsy. -/
theorem c9_zero_timestamp_counterexample :
    (handleSendSettle ⟨[], "", [], true⟩
      (.success ⟨some [⟨Role.agent, some "agent_rag", "x", some 0⟩], none⟩)
      5).messages.map (fun m => m.timestamp) = [5] ∧
    (5 : Nat) ≠ 0 :=
  ⟨rfl, by decide⟩

/-- C9 (amended): every entry of a successful response's `messages` array
is appended as a new `ChatMessage` with the generated id `a_<now>_<idx>`,
keeping the entry's role, agent id and content; its timestamp equals the
entry's timestamp exactly when the entry carries a nonzero (truthy) one,
and defaults to the current time when the timestamp is absent or zero. -/
theorem c9_entries_appended_with_truthy_timestamp (s : AppState)
    (p : SendPayload) (now : Nat) (entries : List MsgEntry)
    (hm : p.messages = some entries) (i : Nat) (m : MsgEntry)
    (hi : entries[i]? = some m) :
    ((handleSendSettle s (.success p) now).messages)[s.messages.length + i]? =
      some { id := "a_" ++ toString now ++ "_" ++ toString i, role := m.role,
             agentId := m.agentId, content := m.content,
             timestamp := match m.timestamp with
                          | some t => if t = 0 then now else t
                          | none => now,
             error := false } := by
  have key : ∀ st : StatusMap,
      (s.messages ++ entries.enum.map (fun im =>
        ({ id := "a_" ++ toString now ++ "_" ++ toString im.1,
           role := im.2.role, agentId := im.2.agentId, content := im.2.content,
           timestamp := jsNumOr im.2.timestamp now, error := false } :
          ChatMessage)))[s.messages.length + i]? =
      some { id := "a_" ++ toString now ++ "_" ++ toString i, role := m.role,
             agentId := m.agentId, content := m.content,
             timestamp := jsNumOr m.timestamp now, error := false } := by
    intro _
    rw [List.getElem?_append_right (Nat.le_add_right _ _)]
    simp [List.getElem?_map, List.getElem?_enum, Nat.add_sub_cancel_left, hi]
  cases hst : p.agentStatus with
  | some st =>
    simpa only [handleSendSettle, hm, hst] using key st
  | none =>
    simpa only [handleSendSettle, hm, hst] using key []

/-- Witness for C9 (amended) at a concrete entry carrying timestamp `0`. -/
theorem c9_entries_appended_with_truthy_timestamp_witness :
    ((handleSendSettle ⟨[], "", [], true⟩
      (.success ⟨some [⟨Role.agent, some "agent_rag", "x", some 0⟩], none⟩)
      5).messages)[(0 : Nat)]? =
      some ⟨"a_" ++ toString 5 ++ "_" ++ toString 0, Role.agent,
        some "agent_rag", "x", 5, false⟩ :=
  c9_entries_appended_with_truthy_timestamp ⟨[], "", [], true⟩
    ⟨some [⟨Role.agent, some "agent_rag", "x", some 0⟩], none⟩ 5
    [⟨Role.agent, some "agent_rag", "x", some 0⟩] rfl 0
    ⟨Role.agent, some "agent_rag", "x", some 0⟩ rfl

end OceanChat
